import Mathlib

/-!
Shallow embedding of the MERN auth API controller layer
(`src/backend/src/controllers/authController.js`, `helpers/sanitizeUser.js`,
`resend/emails.js`).

Modelling conventions:
* The external Mongo user store is a `List UserRec`; `List.find?` plays the
  role of `User.findOne` (first matching document).  A Mongoose query filter
  whose value is `undefined` is dropped from the filter, which we model by a
  `none` query value matching every document.
* bcrypt is modelled by the pair type `BHash`: `bcryptjs.hash pw salt` keeps
  the salt and the password, and `bcryptjs.compare` succeeds exactly when the
  candidate equals the hashed password.  `BHash` is distinct from `String`,
  so a stored password is never the plaintext.
* `Math.floor(100000 + Math.random() * 900000)` is modelled by an arbitrary
  draw `rnd : Nat` standing for `Math.floor(Math.random() * 900000)`, i.e.
  the token is `100000 + rnd % 900000`.
* `crypto.randomBytes(20)` is modelled by a byte list parameter `rbytes`
  (the Node API contract `rbytes.length = 20` appears as a hypothesis where
  a theorem needs it); `.toString("hex")` is `hexEncode`.
* `await` points that can reject (`user.save()`, the resend email senders,
  which rethrow on provider failure) take an outcome parameter: `none` for
  success, `some msg` for an exception carrying `msg` as `error.message`.
* The uniform envelope produced by `responseHandler` (declared in
  `helpers/responseHandler.js`, not included under `src/`; its shape
  `{status, success, message, data?, error?}` follows the controller call
  sites and spec section 6) is the structure `Response`.
* The `User` Mongoose schema file is likewise not under `src/`; field
  defaults (`isVerified` false, token fields absent) follow spec section 3
  and the frontend `User` type.
* JavaScript truthiness of request-body string fields: a field is falsy when
  it is absent (`undefined`) or the empty string (`strFalsy`).
-/

/-- Model of a bcrypt hash: `bcryptjs.hash password salt`.  Kept abstract as
a salt/password pair; it is a type distinct from `String`, so plaintext is
never stored. -/
structure BHash where
  salt : Nat
  pw : String
deriving DecidableEq

/-- `bcryptjs.hash(password, salt)`. -/
def bcryptHash (salt : Nat) (password : String) : BHash :=
  ⟨salt, password⟩

/-- `bcryptjs.compare(candidate, storedHash)`: succeeds exactly when the
candidate password is the one that was hashed. -/
def bcryptCompare (candidate : String) (h : BHash) : Bool :=
  candidate == h.pw

/-- A user document of the `User` Mongoose model.  `none` in an `Option`
field means the path is unset (`undefined`), which Mongoose omits from
`toObject()`. -/
structure UserRec where
  id : Nat
  username : String
  email : String
  password : BHash
  isVerified : Bool
  verificationToken : Option String
  verificationTokenExpiresAt : Option Nat
  resetPasswordToken : Option String
  resetPasswordExpiresAt : Option Nat
  lastLogin : Option Nat
deriving DecidableEq

/-- The plain object produced by `sanitizeUser` (`helpers/sanitizeUser.js`):
`user.toObject()` followed by `delete obj.password`.  It has no password
field at all; every other field of the document is kept. -/
structure UserObj where
  id : Nat
  username : String
  email : String
  isVerified : Bool
  verificationToken : Option String
  verificationTokenExpiresAt : Option Nat
  resetPasswordToken : Option String
  resetPasswordExpiresAt : Option Nat
  lastLogin : Option Nat
deriving DecidableEq

/-- `sanitizeUser` from `helpers/sanitizeUser.js`: converts the document to
a plain object and deletes only the `password` key. -/
def sanitizeUser (u : UserRec) : UserObj :=
  { id := u.id
    username := u.username
    email := u.email
    isVerified := u.isVerified
    verificationToken := u.verificationToken
    verificationTokenExpiresAt := u.verificationTokenExpiresAt
    resetPasswordToken := u.resetPasswordToken
    resetPasswordExpiresAt := u.resetPasswordExpiresAt
    lastLogin := u.lastLogin }

/-- The uniform JSON envelope `{status, success, message, data?, error?}`
sent through `responseHandler`. -/
structure Response where
  status : Nat
  success : Bool
  message : String
  data : Option UserObj
  error : Option String
deriving DecidableEq

/-- An email handed to the resend API (`resend/emails.js`). -/
inductive EmailMsg where
  | verification (dest : String) (code : String)
  | welcome (dest : String)
  | passwordReset (dest : String) (url : String)
  | resetSuccess (dest : String)
deriving DecidableEq

/-- Result of running one handler: the HTTP envelope, the user store after
the request, and the emails actually delivered. -/
structure HResult where
  resp : Response
  db : List UserRec
  emails : List EmailMsg
deriving DecidableEq

/-- Outcome of `await user.save()` in `signup`, which distinguishes a
rejected promise (`exn`) from the dead-code fallback where `savedUser` is
falsy without a throw (`falsy`). -/
inductive SaveOutcome where
  | ok
  | falsy
  | exn (msg : String)
deriving DecidableEq

/-- JavaScript truthiness test used by the `if (!field)` validations: a
request string field is falsy when absent or the empty string. -/
def strFalsy : Option String → Bool
  | none => true
  | some s => s == ""

/-- `User.findOne({ email })` where the filter value may be `undefined`
(Mongoose drops an `undefined` key from the filter, so it matches any
document). -/
def emailMatch (q : Option String) (u : UserRec) : Bool :=
  match q with
  | none => true
  | some e => u.email == e

/-- Replace the stored document with the mutated one (`user.save()` on a
document fetched from the store). -/
def updateById (db : List UserRec) (u : UserRec) : List UserRec :=
  db.map (fun v => if v.id == u.id then u else v)

/-- Request body of `POST /signup`; each field may be absent. -/
structure SignupBody where
  username : Option String
  email : Option String
  password : Option String
deriving DecidableEq

/-- The `signup` handler (`authController.js` lines 36-107).
Inputs beyond the body: current store, the bcrypt salt draw, the
`Math.random` draw `rnd`, `Date.now()`, the store-assigned id, the
`user.save()` outcome, and the `sendVerificationEmail` outcome. -/
def signup (body : SignupBody) (db : List UserRec) (salt rnd now newId : Nat)
    (saveO : SaveOutcome) (emailO : Option String) : HResult :=
  if strFalsy body.username || strFalsy body.email || strFalsy body.password then
    ⟨⟨400, false, "All fields are required", none, none⟩, db, []⟩
  else
    let email := body.email.getD ""
    match db.find? (emailMatch (some email)) with
    | some _ => ⟨⟨400, false, "User already exists", none, none⟩, db, []⟩
    | none =>
      let hashedPassword := bcryptHash salt (body.password.getD "")
      let verificationToken := toString (100000 + rnd % 900000)
      let user : UserRec :=
        { id := newId
          username := body.username.getD ""
          email := email
          password := hashedPassword
          isVerified := false
          verificationToken := some verificationToken
          verificationTokenExpiresAt := some (now + 24 * 60 * 60 * 1000)
          resetPasswordToken := none
          resetPasswordExpiresAt := none
          lastLogin := none }
      match saveO with
      | .exn msg =>
          ⟨⟨400, false, "An error occurred while creating your account", none, some msg⟩,
            db, []⟩
      | .falsy =>
          ⟨⟨500, false, "Failed to save user", none, none⟩, db ++ [user], []⟩
      | .ok =>
          match emailO with
          | some msg =>
              ⟨⟨400, false, "An error occurred while creating your account", none, some msg⟩,
                db ++ [user], []⟩
          | none =>
              ⟨⟨201, true, "User created successfully", some (sanitizeUser user), none⟩,
                db ++ [user], [.verification email verificationToken]⟩

/-- Request body of `POST /login`. -/
structure LoginBody where
  email : Option String
  password : Option String
deriving DecidableEq

/-- The `login` handler (`authController.js` lines 130-184). -/
def login (body : LoginBody) (db : List UserRec) (now : Nat)
    (saveO : Option String) : HResult :=
  if strFalsy body.email || strFalsy body.password then
    ⟨⟨400, false, "All fields are required", none, none⟩, db, []⟩
  else
    match db.find? (emailMatch body.email) with
    | none => ⟨⟨400, false, "Invalid credentials", none, none⟩, db, []⟩
    | some user =>
      if !bcryptCompare (body.password.getD "") user.password then
        ⟨⟨400, false, "Invalid credentials", none, none⟩, db, []⟩
      else
        let user' := { user with lastLogin := some now }
        match saveO with
        | some msg =>
            ⟨⟨400, false, "An error occurred while login process", none, some msg⟩, db, []⟩
        | none =>
            ⟨⟨200, true, "Logged in successfully", some (sanitizeUser user'), none⟩,
              updateById db user', []⟩

/-- Filter of the `verifyEmail` lookup:
`{verificationToken: code, verificationTokenExpiresAt: {$gt: Date.now()}}`.
A `none` code means the filter value was `undefined` (dropped key). -/
def vMatch (code : Option String) (now : Nat) (u : UserRec) : Bool :=
  (match code with
   | none => true
   | some c => u.verificationToken == some c)
  && (match u.verificationTokenExpiresAt with
      | some e => decide (now < e)
      | none => false)

/-- The `verifyEmail` handler (`authController.js` lines 225-267).
`body` models `req.body.verificationCode`: `none` when the field is absent
or null (then `verificationCode.verificationCode` throws a TypeError caught
by the generic handler), `some w` when present, where `w` models
`verificationCode.verificationCode` — the client sends
`{verificationCode: {verificationCode: code}}`, so `w = some code`;
a flat string body gives `w = none` (`undefined`). -/
def verifyEmail (body : Option (Option String)) (db : List UserRec) (now : Nat)
    (saveO emailO : Option String) : HResult :=
  match body with
  | none =>
      ⟨⟨500, false, "An error occurred while verify email process", none,
          some "TypeError: Cannot read properties of undefined"⟩, db, []⟩
  | some code =>
    match db.find? (vMatch code now) with
    | none => ⟨⟨400, false, "Invalid or expired verification code", none, none⟩, db, []⟩
    | some user =>
      let user' := { user with
        isVerified := true
        verificationToken := none
        verificationTokenExpiresAt := none }
      match saveO with
      | some msg =>
          ⟨⟨500, false, "An error occurred while verify email process", none, some msg⟩,
            db, []⟩
      | none =>
        let db' := updateById db user'
        match emailO with
        | some msg =>
            ⟨⟨500, false, "An error occurred while verify email process", none, some msg⟩,
              db', []⟩
        | none =>
            ⟨⟨200, true, "Email verified successfully", some (sanitizeUser user'), none⟩,
              db', [.welcome user'.email]⟩

/-- Lower-case hex digit of a value below 16. -/
def hexDigit (n : Nat) : Char :=
  if n < 10 then Char.ofNat (48 + n) else Char.ofNat (87 + n)

/-- Two-digit hex rendering of one byte. -/
def hexByte (b : Nat) : String :=
  String.mk [hexDigit (b / 16 % 16), hexDigit (b % 16)]

/-- `Buffer.toString("hex")` over a byte list, as used on the output of
`crypto.randomBytes`: the concatenation of the two-digit hex renderings. -/
def hexEncode : List Nat → String
  | [] => ""
  | b :: bs => hexByte b ++ hexEncode bs

/-- The `forgotPassword` handler (`authController.js` lines 287-338).
`rbytes` models the byte string returned by `crypto.randomBytes(20)`;
`clientUrl` is `process.env.CLIENT_URL`. -/
def forgotPassword (body : Option String) (db : List UserRec) (rbytes : List Nat)
    (now : Nat) (saveO emailO : Option String) (clientUrl : String) : HResult :=
  match db.find? (emailMatch body) with
  | none => ⟨⟨400, false, "User not found", none, none⟩, db, []⟩
  | some user =>
    let resetToken := hexEncode rbytes
    let user' := { user with
      resetPasswordToken := some resetToken
      resetPasswordExpiresAt := some (now + 1 * 60 * 60 * 1000) }
    match saveO with
    | some msg =>
        ⟨⟨400, false, "An error occurred in forgotPassword", none, some msg⟩, db, []⟩
    | none =>
      let db' := updateById db user'
      match emailO with
      | some msg =>
          ⟨⟨400, false, "An error occurred in forgotPassword", none, some msg⟩, db', []⟩
      | none =>
          ⟨⟨200, true, "Password reset link sent to your email", none, none⟩, db',
            [.passwordReset user'.email (clientUrl ++ "/reset-password/" ++ resetToken)]⟩

/-- Filter of the `resetPassword` lookup:
`{resetPasswordToken: token, resetPasswordExpiresAt: {$gt: Date.now()}}`. -/
def rMatch (token : String) (now : Nat) (u : UserRec) : Bool :=
  u.resetPasswordToken == some token
  && (match u.resetPasswordExpiresAt with
      | some e => decide (now < e)
      | none => false)

/-- The `resetPassword` handler (`authController.js` lines 363-414); `token`
comes from the URL parameter, `password` from the body. -/
def resetPassword (token password : String) (db : List UserRec) (salt now : Nat)
    (saveO emailO : Option String) : HResult :=
  match db.find? (rMatch token now) with
  | none => ⟨⟨400, false, "Invalid or expired reset token", none, none⟩, db, []⟩
  | some user =>
    let user' := { user with
      password := bcryptHash salt password
      resetPasswordToken := none
      resetPasswordExpiresAt := none }
    match saveO with
    | some msg =>
        ⟨⟨400, false, "An error occurred in resetPassword", none, some msg⟩, db, []⟩
    | none =>
      let db' := updateById db user'
      match emailO with
      | some msg =>
          ⟨⟨400, false, "An error occurred in resetPassword", none, some msg⟩, db', []⟩
      | none =>
          ⟨⟨200, true, "Password reset successful", none, none⟩, db',
            [.resetSuccess user'.email]⟩

/-! Helper lemmas about the store. -/

/-- If `u` is the unique element of `l` satisfying `p`, then `find?` (the
`findOne` of the store) returns exactly `u`. -/
theorem find_eq_some_of_unique {α : Type} (p : α → Bool) (l : List α) (u : α)
    (hmem : u ∈ l) (hp : p u = true)
    (huniq : ∀ v ∈ l, p v = true → v = u) :
    l.find? p = some u := by
  induction l with
  | nil => cases hmem
  | cons a l ih =>
    by_cases ha : p a = true
    · have hau : a = u := huniq a (List.mem_cons_self a l) ha
      subst hau
      simp [List.find?_cons, ha]
    · have hne : a ≠ u := fun h => ha (h ▸ hp)
      have hmem' : u ∈ l := by
        rcases List.mem_cons.mp hmem with h | h
        · exact absurd h.symm hne
        · exact h
      have ha' : p a = false := by
        cases hpa : p a with
        | false => rfl
        | true => exact absurd hpa ha
      simp only [List.find?_cons, ha']
      exact ih hmem' (fun v hv hpv => huniq v (List.mem_cons_of_mem a hv) hpv)

/-- Elements of `updateById db u` are either `u` itself or elements of
`db`. -/
theorem mem_updateById {db : List UserRec} {u v : UserRec}
    (hv : v ∈ updateById db u) : v = u ∨ v ∈ db := by
  unfold updateById at hv
  rcases List.mem_map.mp hv with ⟨w, hw, hwe⟩
  by_cases h : (w.id == u.id) = true
  · left
    rw [← hwe]
    simp [h]
  · right
    have : (if (w.id == u.id) = true then u else w) = w := by simp [h]
    rw [← hwe, this]
    exact hw

/-- Sample stored user: signed up, not yet verified, verification code
`"123456"` expiring at time `86400000`. -/
def adaUser : UserRec :=
  { id := 1
    username := "Ada"
    email := "ada@x.com"
    password := bcryptHash 5 "pw12345"
    isVerified := false
    verificationToken := some "123456"
    verificationTokenExpiresAt := some 86400000
    resetPasswordToken := none
    resetPasswordExpiresAt := none
    lastLogin := none }

/-! Claims. -/

/-- C1: the claim states that successful signup/login/verifyEmail responses
contain no password field and no token fields.  `sanitizeUser` deletes only
`password`, so the 201 signup response data still carries the verification
token and its expiry: evaluating the concrete signup
`signup("Ada","ada@x.com","pw12345")` on the empty store (salt draw 12,
random draw 23456, time 0, id 1, effects succeeding) yields status 201 with
`data.verificationToken = "123456"` and its expiry — contradicting the
claim.  (The password field itself is indeed absent by the shape of
`UserObj`.) -/
theorem signup_response_leaks_verification_token :
    (signup ⟨some "Ada", some "ada@x.com", some "pw12345"⟩ [] 12 23456 0 1
        SaveOutcome.ok none).resp.status = 201 ∧
    ((signup ⟨some "Ada", some "ada@x.com", some "pw12345"⟩ [] 12 23456 0 1
        SaveOutcome.ok none).resp.data.map UserObj.verificationToken) =
      some (some "123456") ∧
    ((signup ⟨some "Ada", some "ada@x.com", some "pw12345"⟩ [] 12 23456 0 1
        SaveOutcome.ok none).resp.data.map UserObj.verificationTokenExpiresAt) =
      some (some 86400000) := by
  decide

/-- C10: a `verifyEmail` request whose body lacks the `verificationCode`
field makes `verificationCode.verificationCode` throw, so the generic
handler returns the 500 envelope and the store is untouched, for every
store, time and effect outcome. -/
theorem verifyEmail_missing_code_is_500 (db : List UserRec) (now : Nat)
    (saveO emailO : Option String) :
    verifyEmail none db now saveO emailO =
      ⟨⟨500, false, "An error occurred while verify email process", none,
          some "TypeError: Cannot read properties of undefined"⟩, db, []⟩ := by
  rfl

/-- C4: with a non-empty email and password, the login failure envelope for
an unknown email (store `db1`) equals the one for a known email with a
failing password comparison (store `db2`, matching user `u`): both are
exactly 400 "Invalid credentials". -/
theorem login_uniform_invalid_credentials
    (db1 db2 : List UserRec) (email pw : String)
    (he : email ≠ "") (hp : pw ≠ "")
    (now1 now2 : Nat) (saveO1 saveO2 : Option String) (u : UserRec)
    (h1 : db1.find? (emailMatch (some email)) = none)
    (h2 : db2.find? (emailMatch (some email)) = some u)
    (h3 : bcryptCompare pw u.password = false) :
    (login ⟨some email, some pw⟩ db1 now1 saveO1).resp =
      (login ⟨some email, some pw⟩ db2 now2 saveO2).resp ∧
    (login ⟨some email, some pw⟩ db1 now1 saveO1).resp =
      ⟨400, false, "Invalid credentials", none, none⟩ := by
  have e1 : (login ⟨some email, some pw⟩ db1 now1 saveO1).resp =
      ⟨400, false, "Invalid credentials", none, none⟩ := by
    simp [login, strFalsy, he, hp, h1]
  have e2 : (login ⟨some email, some pw⟩ db2 now2 saveO2).resp =
      ⟨400, false, "Invalid credentials", none, none⟩ := by
    simp [login, strFalsy, he, hp, h2, h3]
  exact ⟨e1.trans e2.symm, e1⟩

/-- C4 witness: unknown email `[]` versus wrong password against the stored
`adaUser`. -/
theorem login_uniform_invalid_credentials_witness :
    (login ⟨some "ada@x.com", some "wrong"⟩ [] 0 none).resp =
      (login ⟨some "ada@x.com", some "wrong"⟩ [adaUser] 7 none).resp ∧
    (login ⟨some "ada@x.com", some "wrong"⟩ [] 0 none).resp =
      ⟨400, false, "Invalid credentials", none, none⟩ :=
  login_uniform_invalid_credentials [] [adaUser] "ada@x.com" "wrong"
    (by decide) (by decide) 0 7 none none adaUser (by rfl) (by decide)
    (by decide)

/-- If some element of `l` satisfies `p`, `find?` returns some element. -/
theorem find_isSome_of_mem {α : Type} (p : α → Bool) (l : List α) (w : α)
    (hm : w ∈ l) (hp : p w = true) : ∃ y, l.find? p = some y := by
  induction l with
  | nil => cases hm
  | cons a l ih =>
    cases hpa : p a with
    | false =>
      rcases List.mem_cons.mp hm with h | h
      · exact absurd (h ▸ hp) (by simp [hpa])
      · obtain ⟨y, hy⟩ := ih h
        exact ⟨y, by simp [List.find?_cons, hpa, hy]⟩
    | true => exact ⟨a, by simp [List.find?_cons, hpa]⟩

/-- C5: behaviour of `signup`.  (a) a missing (or empty, by JS truthiness)
field yields 400 "All fields are required" and leaves the store as it was;
(b) an already-used email yields 400 "User already exists" and leaves the
store as it was; (c) otherwise, with the save and the verification email
succeeding, the handler returns 201 and appends exactly one user whose
stored password is the bcrypt hash of the submitted password, whose
verification token is the decimal string of `100000 + rnd % 900000` — a
value in `[100000, 999999]` — and whose verification expiry is 24 hours
past `now`. -/
theorem signup_spec
    (body : SignupBody) (db : List UserRec) (salt rnd now newId : Nat)
    (saveO : SaveOutcome) (emailO : Option String) :
    ((strFalsy body.username || strFalsy body.email || strFalsy body.password) = true →
      signup body db salt rnd now newId saveO emailO =
        ⟨⟨400, false, "All fields are required", none, none⟩, db, []⟩) ∧
    ((strFalsy body.username || strFalsy body.email || strFalsy body.password) = false →
      (∃ w ∈ db, w.email = body.email.getD "") →
      signup body db salt rnd now newId saveO emailO =
        ⟨⟨400, false, "User already exists", none, none⟩, db, []⟩) ∧
    ((strFalsy body.username || strFalsy body.email || strFalsy body.password) = false →
      db.find? (emailMatch (some (body.email.getD ""))) = none →
      signup body db salt rnd now newId SaveOutcome.ok none =
        ⟨⟨201, true, "User created successfully",
            some (sanitizeUser
              { id := newId
                username := body.username.getD ""
                email := body.email.getD ""
                password := bcryptHash salt (body.password.getD "")
                isVerified := false
                verificationToken := some (toString (100000 + rnd % 900000))
                verificationTokenExpiresAt := some (now + 24 * 60 * 60 * 1000)
                resetPasswordToken := none
                resetPasswordExpiresAt := none
                lastLogin := none }), none⟩,
          db ++
            [{ id := newId
               username := body.username.getD ""
               email := body.email.getD ""
               password := bcryptHash salt (body.password.getD "")
               isVerified := false
               verificationToken := some (toString (100000 + rnd % 900000))
               verificationTokenExpiresAt := some (now + 24 * 60 * 60 * 1000)
               resetPasswordToken := none
               resetPasswordExpiresAt := none
               lastLogin := none }],
          [EmailMsg.verification (body.email.getD "")
            (toString (100000 + rnd % 900000))]⟩ ∧
      100000 ≤ 100000 + rnd % 900000 ∧ 100000 + rnd % 900000 ≤ 999999) := by
  refine ⟨?_, ?_, ?_⟩
  · intro h1
    simp [signup, h1]
  · intro h1 h2
    obtain ⟨w, hw, hwe⟩ := h2
    obtain ⟨y, hy⟩ := find_isSome_of_mem (emailMatch (some (body.email.getD "")))
      db w hw (by simp [emailMatch, hwe])
    simp [signup, h1, hy]
  · intro h1 h2
    have hlt : rnd % 900000 < 900000 := Nat.mod_lt rnd (by norm_num)
    refine ⟨?_, by omega, by omega⟩
    simp [signup, h1, h2]

/-- C5 witness: a missing username, a duplicate email against the stored
`adaUser`, and a fresh successful signup. -/
theorem signup_spec_witness :
    signup ⟨none, some "ada@x.com", some "pw12345"⟩ [] 12 23456 0 1
        SaveOutcome.ok none =
      ⟨⟨400, false, "All fields are required", none, none⟩, [], []⟩ ∧
    signup ⟨some "Eve", some "ada@x.com", some "pw99"⟩ [adaUser] 12 23456 0 2
        SaveOutcome.ok none =
      ⟨⟨400, false, "User already exists", none, none⟩, [adaUser], []⟩ ∧
    (signup ⟨some "Ada", some "ada@x.com", some "pw12345"⟩ [] 12 23456 0 1
        SaveOutcome.ok none =
      ⟨⟨201, true, "User created successfully",
          some ⟨1, "Ada", "ada@x.com", false, some "123456", some 86400000,
            none, none, none⟩, none⟩,
        [⟨1, "Ada", "ada@x.com", bcryptHash 12 "pw12345", false, some "123456",
          some 86400000, none, none, none⟩],
        [EmailMsg.verification "ada@x.com" "123456"]⟩ ∧
      100000 ≤ 100000 + 23456 % 900000 ∧ 100000 + 23456 % 900000 ≤ 999999) := by
  have h1 := signup_spec ⟨none, some "ada@x.com", some "pw12345"⟩ [] 12 23456 0 1
    SaveOutcome.ok none
  have h2 := signup_spec ⟨some "Eve", some "ada@x.com", some "pw99"⟩ [adaUser]
    12 23456 0 2 SaveOutcome.ok none
  have h3 := signup_spec ⟨some "Ada", some "ada@x.com", some "pw12345"⟩ [] 12
    23456 0 1 SaveOutcome.ok none
  exact ⟨h1.1 (by decide), h2.2.1 (by decide) ⟨adaUser, by decide, by decide⟩,
    h3.2.2 (by decide) (by rfl)⟩

/-- Sample stored user holding a pending password-reset token `"aabb"`
expiring at time 10. -/
def bobUser : UserRec :=
  { id := 2
    username := "Bob"
    email := "bob@x.com"
    password := bcryptHash 5 "oldpw"
    isVerified := true
    verificationToken := none
    verificationTokenExpiresAt := none
    resetPasswordToken := some "aabb"
    resetPasswordExpiresAt := some 10
    lastLogin := none }

/-- C3 counterexample: the claim states every caught unexpected exception
yields HTTP 500, but when the verification-email send rejects inside a
valid signup, the catch block returns status 400 (with the cause in the
diagnostic field), not 500. -/
theorem signup_exception_status_counterexample :
    (signup ⟨some "Ada", some "ada@x.com", some "pw12345"⟩ [] 12 23456 0 1
        SaveOutcome.ok (some "provider down")).resp.status = 400 ∧
    (signup ⟨some "Ada", some "ada@x.com", some "pw12345"⟩ [] 12 23456 0 1
        SaveOutcome.ok (some "provider down")).resp.error =
      some "provider down" := by
  decide

/-- C3 as amended: every handler catches an exception thrown at one of its
`await` points and converts it into the uniform envelope carrying the
cause in the diagnostic `error` field — but the status is 500 only in
`verifyEmail`; `signup`, `login`, `forgotPassword` and `resetPassword`
report caught exceptions with status 400. -/
theorem handlers_catch_exceptions (msg : String)
    (sbody : SignupBody) (sdb : List UserRec) (salt rnd now newId : Nat)
    (semailO : Option String)
    (hs1 : (strFalsy sbody.username || strFalsy sbody.email ||
      strFalsy sbody.password) = false)
    (hs2 : sdb.find? (emailMatch (some (sbody.email.getD ""))) = none)
    (lbody : LoginBody) (ldb : List UserRec) (lu : UserRec)
    (hl0 : (strFalsy lbody.email || strFalsy lbody.password) = false)
    (hl1 : ldb.find? (emailMatch lbody.email) = some lu)
    (hl2 : bcryptCompare (lbody.password.getD "") lu.password = true)
    (vdb : List UserRec) (code : Option String) (vu : UserRec)
    (hv : vdb.find? (vMatch code now) = some vu)
    (fdb : List UserRec) (femail : Option String) (fu : UserRec)
    (rbytes : List Nat) (curl : String)
    (hf : fdb.find? (emailMatch femail) = some fu)
    (rdb : List UserRec) (rtok rpw : String) (ru : UserRec)
    (hr : rdb.find? (rMatch rtok now) = some ru) :
    (signup sbody sdb salt rnd now newId (SaveOutcome.exn msg) semailO).resp =
      ⟨400, false, "An error occurred while creating your account", none, some msg⟩ ∧
    (login lbody ldb now (some msg)).resp =
      ⟨400, false, "An error occurred while login process", none, some msg⟩ ∧
    (verifyEmail (some code) vdb now (some msg) none).resp =
      ⟨500, false, "An error occurred while verify email process", none, some msg⟩ ∧
    (forgotPassword femail fdb rbytes now (some msg) none curl).resp =
      ⟨400, false, "An error occurred in forgotPassword", none, some msg⟩ ∧
    (resetPassword rtok rpw rdb salt now (some msg) none).resp =
      ⟨400, false, "An error occurred in resetPassword", none, some msg⟩ := by
  refine ⟨?_, ?_, ?_, ?_, ?_⟩
  · simp [signup, hs1, hs2]
  · simp [login, hl0, hl1, hl2]
  · simp [verifyEmail, hv]
  · simp [forgotPassword, hf]
  · simp [resetPassword, hr]

/-- C3 witness: a provider exception with message `"boom"` at the save or
email step of each of the five handlers, on concrete stores. -/
theorem handlers_catch_exceptions_witness :
    (signup ⟨some "Ada", some "ada@x.com", some "pw12345"⟩ [] 12 23456 0 1
        (SaveOutcome.exn "boom") none).resp =
      ⟨400, false, "An error occurred while creating your account", none, some "boom"⟩ ∧
    (login ⟨some "ada@x.com", some "pw12345"⟩ [adaUser] 0 (some "boom")).resp =
      ⟨400, false, "An error occurred while login process", none, some "boom"⟩ ∧
    (verifyEmail (some (some "123456")) [adaUser] 0 (some "boom") none).resp =
      ⟨500, false, "An error occurred while verify email process", none, some "boom"⟩ ∧
    (forgotPassword (some "ada@x.com") [adaUser] [1, 2] 0 (some "boom") none
        "http://client").resp =
      ⟨400, false, "An error occurred in forgotPassword", none, some "boom"⟩ ∧
    (resetPassword "aabb" "newpw" [bobUser] 12 0 (some "boom") none).resp =
      ⟨400, false, "An error occurred in resetPassword", none, some "boom"⟩ := by
  exact handlers_catch_exceptions "boom"
    ⟨some "Ada", some "ada@x.com", some "pw12345"⟩ [] 12 23456 0 1 none
    (by decide) (by rfl)
    ⟨some "ada@x.com", some "pw12345"⟩ [adaUser] adaUser
    (by decide) (by rfl) (by decide)
    [adaUser] (some "123456") adaUser (by rfl)
    [adaUser] (some "ada@x.com") adaUser [1, 2] "http://client" (by rfl)
    [bobUser] "aabb" "newpw" bobUser (by rfl)


/-- Elements of `updateById db u` are either `u` or untouched elements of
`db` whose id differs from `u.id`. -/
theorem mem_updateById_strong {db : List UserRec} {u v : UserRec}
    (hv : v ∈ updateById db u) : v = u ∨ (v ∈ db ∧ (v.id == u.id) = false) := by
  unfold updateById at hv
  rcases List.mem_map.mp hv with ⟨w, hw, hwe⟩
  by_cases h : (w.id == u.id) = true
  · left
    rw [← hwe]
    simp [h]
  · right
    have hfalse : (w.id == u.id) = false := by
      cases hb : (w.id == u.id) with
      | false => rfl
      | true => exact absurd hb h
    have hne : (if (w.id == u.id) = true then u else w) = w := by simp [hfalse]
    rw [← hwe, hne]
    exact ⟨hw, hfalse⟩

/-- The mutation `verifyEmail` performs on the matched user
(`authController.js` lines 245-247): set `isVerified`, clear both
verification-token fields. -/
def consumeVerification (u : UserRec) : UserRec :=
  { u with isVerified := true, verificationToken := none, verificationTokenExpiresAt := none }

/-- C2: behaviour of `verifyEmail` on a request carrying a code `c` (the
client wraps it, so the body field is `some (some c)`).  If `c` is the
verification token of a unique stored user `u` whose expiry is strictly
after `now`, the handler (with the save and welcome email succeeding)
returns 200 with the sanitized verified user, stores `u` with
`isVerified = true` and both verification-token fields cleared, and the
consumed code can never succeed again at any later time; if no stored
user matches (wrong code or expired), the handler returns the 400
"Invalid or expired verification code" envelope and the store is
untouched. -/
theorem verifyEmail_spec (db : List UserRec) (c : String) (now : Nat) :
    (∀ u ∈ db, vMatch (some c) now u = true →
      (∀ v ∈ db, vMatch (some c) now v = true → v = u) →
      verifyEmail (some (some c)) db now none none =
        ⟨⟨200, true, "Email verified successfully",
            some (sanitizeUser (consumeVerification u)), none⟩,
          updateById db (consumeVerification u),
          [EmailMsg.welcome u.email]⟩ ∧
      (∀ now', now ≤ now' → ∀ saveO emailO,
        (verifyEmail (some (some c))
            (verifyEmail (some (some c)) db now none none).db
            now' saveO emailO).resp =
          ⟨400, false, "Invalid or expired verification code", none, none⟩)) ∧
    ((∀ v ∈ db, vMatch (some c) now v = false) →
      ∀ saveO emailO,
        verifyEmail (some (some c)) db now saveO emailO =
          ⟨⟨400, false, "Invalid or expired verification code", none, none⟩,
            db, []⟩) := by
  constructor
  · intro u hmem hmatch huniq
    have hfind : db.find? (vMatch (some c) now) = some u :=
      find_eq_some_of_unique _ db u hmem hmatch huniq
    have hsucc : verifyEmail (some (some c)) db now none none =
        ⟨⟨200, true, "Email verified successfully",
            some (sanitizeUser (consumeVerification u)), none⟩,
          updateById db (consumeVerification u),
          [EmailMsg.welcome u.email]⟩ := by
      simp [verifyEmail, hfind, consumeVerification]
    refine ⟨hsucc, ?_⟩
    intro now' hle saveO emailO
    have hdb : (verifyEmail (some (some c)) db now none none).db =
        updateById db (consumeVerification u) := by
      rw [hsucc]
    rw [hdb]
    have hnone : (updateById db (consumeVerification u)).find?
        (vMatch (some c) now') = none := by
      refine List.find?_eq_none.mpr ?_
      intro v hv hp
      rcases mem_updateById_strong hv with hvu | ⟨hvdb, hid⟩
      · rw [hvu] at hp
        simp [vMatch, consumeVerification] at hp
      · unfold vMatch at hp
        rw [Bool.and_eq_true] at hp
        obtain ⟨htok, hexp⟩ := hp
        simp at htok
        have hmv : vMatch (some c) now v = true := by
          cases he : v.verificationTokenExpiresAt with
          | none => rw [he] at hexp; cases hexp
          | some e =>
            rw [he] at hexp
            have hlt : now' < e := of_decide_eq_true hexp
            have hnowe : now < e := lt_of_le_of_lt hle hlt
            simp [vMatch, htok, he, hnowe]
        have hvu : v = u := huniq v hvdb hmv
        rw [hvu] at hid
        simp [consumeVerification] at hid
    simp [verifyEmail, hnone]
  · intro h saveO emailO
    have hfind : db.find? (vMatch (some c) now) = none :=
      List.find?_eq_none.mpr (fun v hv => by simp [h v hv])
    simp [verifyEmail, hfind]

/-- C2 witness: `adaUser` holds code `"123456"` expiring at `86400000`; at
time 0 the code verifies her, and replaying the consumed code at time 0
fails with 400. -/
theorem verifyEmail_spec_witness :
    verifyEmail (some (some "123456")) [adaUser] 0 none none =
      ⟨⟨200, true, "Email verified successfully",
          some (sanitizeUser (consumeVerification adaUser)), none⟩,
        updateById [adaUser] (consumeVerification adaUser),
        [EmailMsg.welcome adaUser.email]⟩ ∧
    (verifyEmail (some (some "123456"))
        (verifyEmail (some (some "123456")) [adaUser] 0 none none).db
        0 none none).resp =
      ⟨400, false, "Invalid or expired verification code", none, none⟩ := by
  have h := (verifyEmail_spec [adaUser] "123456" 0).1 adaUser
    (by decide) (by decide) (by decide)
  exact ⟨h.1, h.2 0 (by decide) none none⟩

/-- The mutation `resetPassword` performs on the matched user
(`authController.js` lines 389-391): replace the stored hash, clear both
reset-token fields. -/
def applyReset (salt : Nat) (password : String) (u : UserRec) : UserRec :=
  { u with
      password := bcryptHash salt password
      resetPasswordToken := none
      resetPasswordExpiresAt := none }

/-- C6 counterexample: `bobUser` originally authenticates with password
`"oldpw"` and holds the valid reset token `"aabb"`.  Resetting with the
same password `"oldpw"` succeeds (status 200), yet afterwards the old
password still authenticates against the stored hash — refuting the
universally quantified "the old password no longer authenticates". -/
theorem resetPassword_old_password_counterexample :
    bcryptCompare "oldpw" bobUser.password = true ∧
    (resetPassword "aabb" "oldpw" [bobUser] 12 0 none none).resp.status = 200 ∧
    ((resetPassword "aabb" "oldpw" [bobUser] 12 0 none none).db.map
      (fun v => bcryptCompare "oldpw" v.password)) = [true] := by
  decide

/-- C6 as amended: when `tok` is the reset token of a unique stored user
`u` with unexpired expiry, `resetPassword` (with save and email
succeeding) returns 200, replaces the stored hash by the bcrypt hash of
the new password — so the new password authenticates and any old password
different from the new one no longer does — and clears both reset-token
fields so the token can never succeed again at any later time; with a
non-matching or expired token it fails with the 400 envelope and the
store is untouched. -/
theorem resetPassword_spec (db : List UserRec) (tok newPw : String)
    (salt now : Nat) :
    (∀ u ∈ db, rMatch tok now u = true →
      (∀ v ∈ db, rMatch tok now v = true → v = u) →
      resetPassword tok newPw db salt now none none =
        ⟨⟨200, true, "Password reset successful", none, none⟩,
          updateById db (applyReset salt newPw u),
          [EmailMsg.resetSuccess u.email]⟩ ∧
      (∀ oldPw, bcryptCompare oldPw u.password = true → oldPw ≠ newPw →
        bcryptCompare oldPw (applyReset salt newPw u).password = false) ∧
      bcryptCompare newPw (applyReset salt newPw u).password = true ∧
      (∀ now', now ≤ now' → ∀ pw salt' saveO emailO,
        (resetPassword tok pw
            (resetPassword tok newPw db salt now none none).db
            salt' now' saveO emailO).resp =
          ⟨400, false, "Invalid or expired reset token", none, none⟩)) ∧
    ((∀ v ∈ db, rMatch tok now v = false) →
      ∀ saveO emailO,
        resetPassword tok newPw db salt now saveO emailO =
          ⟨⟨400, false, "Invalid or expired reset token", none, none⟩,
            db, []⟩) := by
  constructor
  · intro u hmem hmatch huniq
    have hfind : db.find? (rMatch tok now) = some u :=
      find_eq_some_of_unique _ db u hmem hmatch huniq
    have hsucc : resetPassword tok newPw db salt now none none =
        ⟨⟨200, true, "Password reset successful", none, none⟩,
          updateById db (applyReset salt newPw u),
          [EmailMsg.resetSuccess u.email]⟩ := by
      simp [resetPassword, hfind, applyReset]
    refine ⟨hsucc, ?_, ?_, ?_⟩
    · intro oldPw _ hne
      simp [bcryptCompare, bcryptHash, applyReset]
      exact hne
    · simp [bcryptCompare, bcryptHash, applyReset]
    · intro now' hle pw salt' saveO emailO
      have hdb : (resetPassword tok newPw db salt now none none).db =
          updateById db (applyReset salt newPw u) := by
        rw [hsucc]
      rw [hdb]
      have hnone : (updateById db (applyReset salt newPw u)).find?
          (rMatch tok now') = none := by
        refine List.find?_eq_none.mpr ?_
        intro v hv hp
        rcases mem_updateById_strong hv with hvu | ⟨hvdb, hid⟩
        · rw [hvu] at hp
          simp [rMatch, applyReset] at hp
        · unfold rMatch at hp
          rw [Bool.and_eq_true] at hp
          obtain ⟨htok, hexp⟩ := hp
          simp at htok
          have hmv : rMatch tok now v = true := by
            cases he : v.resetPasswordExpiresAt with
            | none => rw [he] at hexp; cases hexp
            | some e =>
              rw [he] at hexp
              have hlt : now' < e := of_decide_eq_true hexp
              have hnowe : now < e := lt_of_le_of_lt hle hlt
              simp [rMatch, htok, he, hnowe]
          have hvu : v = u := huniq v hvdb hmv
          rw [hvu] at hid
          simp [applyReset] at hid
      simp [resetPassword, hnone]
  · intro h saveO emailO
    have hfind : db.find? (rMatch tok now) = none :=
      List.find?_eq_none.mpr (fun v hv => by simp [h v hv])
    simp [resetPassword, hfind]

/-- C6 witness: `bobUser` resets from `"oldpw"` to the different password
`"newpw"` with token `"aabb"` at time 0; the old password stops
authenticating, the new one authenticates, and the token replay at time 0
fails with 400. -/
theorem resetPassword_spec_witness :
    resetPassword "aabb" "newpw" [bobUser] 12 0 none none =
      ⟨⟨200, true, "Password reset successful", none, none⟩,
        updateById [bobUser] (applyReset 12 "newpw" bobUser),
        [EmailMsg.resetSuccess bobUser.email]⟩ ∧
    bcryptCompare "oldpw" (applyReset 12 "newpw" bobUser).password = false ∧
    bcryptCompare "newpw" (applyReset 12 "newpw" bobUser).password = true ∧
    (resetPassword "aabb" "again"
        (resetPassword "aabb" "newpw" [bobUser] 12 0 none none).db
        12 0 none none).resp =
      ⟨400, false, "Invalid or expired reset token", none, none⟩ := by
  have h := (resetPassword_spec [bobUser] "aabb" "newpw" 12 0).1 bobUser
    (by decide) (by decide) (by decide)
  exact ⟨h.1, h.2.1 "oldpw" (by decide) (by decide), h.2.2.1,
    h.2.2.2 0 (by decide) "again" 12 none none⟩

/-- Hex encoding produces two characters per byte. -/
theorem hexEncode_length (bs : List Nat) :
    (hexEncode bs).length = 2 * bs.length := by
  induction bs with
  | nil => rfl
  | cons b bs ih =>
    have hb : (hexByte b).length = 2 := rfl
    simp [hexEncode, hb, ih]
    omega

/-- The mutation `forgotPassword` performs on the matched user
(`authController.js` lines 311-312): store the reset token and its
1-hour expiry. -/
def setResetToken (tokStr : String) (now : Nat) (u : UserRec) : UserRec :=
  { u with
      resetPasswordToken := some tokStr
      resetPasswordExpiresAt := some (now + 1 * 60 * 60 * 1000) }

/-- C7: behaviour of `forgotPassword` for a request with email present.
If no stored user has that email, the handler returns the 400 "User not
found" envelope and the store is untouched.  Otherwise (with save and
email succeeding) it stores, for the first user `u` found by email, the
hex encoding of the 20 random bytes as reset token (40 hex characters)
with expiry exactly one hour past `now`, and the success response is a
constant envelope carrying only the confirmation message — no data and in
particular no token; the raw token travels only in the reset email. -/
theorem forgotPassword_spec (db : List UserRec) (email : String)
    (rbytes : List Nat) (now : Nat) (clientUrl : String) :
    ((∀ v ∈ db, emailMatch (some email) v = false) →
      ∀ saveO emailO,
        forgotPassword (some email) db rbytes now saveO emailO clientUrl =
          ⟨⟨400, false, "User not found", none, none⟩, db, []⟩) ∧
    (∀ u, db.find? (emailMatch (some email)) = some u →
      rbytes.length = 20 →
      forgotPassword (some email) db rbytes now none none clientUrl =
        ⟨⟨200, true, "Password reset link sent to your email", none, none⟩,
          updateById db (setResetToken (hexEncode rbytes) now u),
          [EmailMsg.passwordReset u.email
            (clientUrl ++ "/reset-password/" ++ hexEncode rbytes)]⟩ ∧
      (setResetToken (hexEncode rbytes) now u).resetPasswordToken =
        some (hexEncode rbytes) ∧
      (setResetToken (hexEncode rbytes) now u).resetPasswordExpiresAt =
        some (now + 3600000) ∧
      (hexEncode rbytes).length = 40) := by
  constructor
  · intro h saveO emailO
    have hfind : db.find? (emailMatch (some email)) = none :=
      List.find?_eq_none.mpr (fun v hv => by simp [h v hv])
    simp [forgotPassword, hfind]
  · intro u hu hlen
    refine ⟨?_, rfl, rfl, ?_⟩
    · simp [forgotPassword, hu, setResetToken]
    · rw [hexEncode_length, hlen]

/-- C7 witness: unknown email `"nobody@x.com"` against the store
`[adaUser]`, and a successful request for `adaUser` with 20 random bytes
`0xab`. -/
theorem forgotPassword_spec_witness :
    forgotPassword (some "nobody@x.com") [adaUser] (List.replicate 20 171) 0
        none none "http://client" =
      ⟨⟨400, false, "User not found", none, none⟩, [adaUser], []⟩ ∧
    (forgotPassword (some "ada@x.com") [adaUser] (List.replicate 20 171) 0
        none none "http://client" =
      ⟨⟨200, true, "Password reset link sent to your email", none, none⟩,
        updateById [adaUser]
          (setResetToken (hexEncode (List.replicate 20 171)) 0 adaUser),
        [EmailMsg.passwordReset adaUser.email
          ("http://client" ++ "/reset-password/" ++
            hexEncode (List.replicate 20 171))]⟩ ∧
      (setResetToken (hexEncode (List.replicate 20 171)) 0
          adaUser).resetPasswordToken =
        some (hexEncode (List.replicate 20 171)) ∧
      (setResetToken (hexEncode (List.replicate 20 171)) 0
          adaUser).resetPasswordExpiresAt = some 3600000 ∧
      (hexEncode (List.replicate 20 171)).length = 40) := by
  have h1 := (forgotPassword_spec [adaUser] "nobody@x.com"
    (List.replicate 20 171) 0 "http://client").1 (by decide) none none
  have h2 := (forgotPassword_spec [adaUser] "ada@x.com"
    (List.replicate 20 171) 0 "http://client").2 adaUser (by rfl) (by rfl)
  exact ⟨h1, h2⟩

/-- The spec section 3 pairing invariant on one user: the verification
token and its expiry are both present or both absent, and likewise the
reset-password token and its expiry. -/
def pairInv (u : UserRec) : Bool :=
  (u.verificationToken.isSome == u.verificationTokenExpiresAt.isSome)
  && (u.resetPasswordToken.isSome == u.resetPasswordExpiresAt.isSome)

/-- The pairing invariant over the whole store. -/
def dbInv (db : List UserRec) : Bool :=
  db.all pairInv

/-- Every member of an invariant store satisfies the pairing invariant. -/
theorem pairInv_of_dbInv {db : List UserRec} {u : UserRec}
    (h : dbInv db = true) (hm : u ∈ db) : pairInv u = true := by
  unfold dbInv at h
  exact List.all_eq_true.mp h u hm

/-- Appending an invariant user preserves the store invariant. -/
theorem dbInv_append {db : List UserRec} {u : UserRec}
    (h : dbInv db = true) (hu : pairInv u = true) :
    dbInv (db ++ [u]) = true := by
  unfold dbInv at h ⊢
  simp [List.all_append, h, hu]

/-- Writing back an invariant user preserves the store invariant. -/
theorem dbInv_updateById {db : List UserRec} {u : UserRec}
    (h : dbInv db = true) (hu : pairInv u = true) :
    dbInv (updateById db u) = true := by
  unfold dbInv
  refine List.all_eq_true.mpr ?_
  intro v hv
  rcases mem_updateById_strong hv with rfl | ⟨hvdb, _⟩
  · exact hu
  · exact pairInv_of_dbInv h hvdb

/-- C8: every handler maps a store in which each user's verification-token
pair and reset-token pair are set-together/cleared-together to a store
with the same property: signup creates both verification fields and
neither reset field, verifyEmail clears both verification fields,
forgotPassword sets both reset fields, resetPassword clears both reset
fields, and login touches neither pair. -/
theorem handlers_preserve_token_pair_invariant (db : List UserRec)
    (hdb : dbInv db = true) :
    (∀ body salt rnd now newId saveO emailO,
      dbInv (signup body db salt rnd now newId saveO emailO).db = true) ∧
    (∀ body now saveO, dbInv (login body db now saveO).db = true) ∧
    (∀ body now saveO emailO,
      dbInv (verifyEmail body db now saveO emailO).db = true) ∧
    (∀ body rbytes now saveO emailO curl,
      dbInv (forgotPassword body db rbytes now saveO emailO curl).db = true) ∧
    (∀ tok pw salt now saveO emailO,
      dbInv (resetPassword tok pw db salt now saveO emailO).db = true) := by
  refine ⟨?_, ?_, ?_, ?_, ?_⟩
  · intro body salt rnd now newId saveO emailO
    cases hcond : (strFalsy body.username || strFalsy body.email ||
        strFalsy body.password) with
    | true => simpa [signup, hcond] using hdb
    | false =>
      cases hfind : db.find? (emailMatch (some (body.email.getD ""))) with
      | some w => simpa [signup, hcond, hfind] using hdb
      | none =>
        cases saveO with
        | exn msg => simpa [signup, hcond, hfind] using hdb
        | falsy =>
          simp only [signup, hcond, hfind]
          exact dbInv_append hdb (by rfl)
        | ok =>
          cases emailO with
          | some msg =>
            simp only [signup, hcond, hfind]
            exact dbInv_append hdb (by rfl)
          | none =>
            simp only [signup, hcond, hfind]
            exact dbInv_append hdb (by rfl)
  · intro body now saveO
    cases hcond : (strFalsy body.email || strFalsy body.password) with
    | true => simpa [login, hcond] using hdb
    | false =>
      cases hfind : db.find? (emailMatch body.email) with
      | none => simpa [login, hcond, hfind] using hdb
      | some w =>
        cases hbc : bcryptCompare (body.password.getD "") w.password with
        | false => simpa [login, hcond, hfind, hbc] using hdb
        | true =>
          cases saveO with
          | some msg => simpa [login, hcond, hfind, hbc] using hdb
          | none =>
            simp only [login, hcond, hfind, hbc]
            have hw : pairInv w = true :=
              pairInv_of_dbInv hdb (List.mem_of_find?_eq_some hfind)
            refine dbInv_updateById hdb ?_
            simpa [pairInv] using hw
  · intro body now saveO emailO
    cases body with
    | none => simpa [verifyEmail] using hdb
    | some code =>
      cases hfind : db.find? (vMatch code now) with
      | none => simpa [verifyEmail, hfind] using hdb
      | some w =>
        have hw : pairInv w = true :=
          pairInv_of_dbInv hdb (List.mem_of_find?_eq_some hfind)
        have hw' : pairInv { w with
            isVerified := true
            verificationToken := none
            verificationTokenExpiresAt := none } = true := by
          unfold pairInv at hw ⊢
          rw [Bool.and_eq_true] at hw
          simp [hw.2]
        cases saveO with
        | some msg => simpa [verifyEmail, hfind] using hdb
        | none =>
          cases emailO with
          | some msg =>
            simp only [verifyEmail, hfind]
            exact dbInv_updateById hdb hw'
          | none =>
            simp only [verifyEmail, hfind]
            exact dbInv_updateById hdb hw'
  · intro body rbytes now saveO emailO curl
    cases hfind : db.find? (emailMatch body) with
    | none => simpa [forgotPassword, hfind] using hdb
    | some w =>
      have hw : pairInv w = true :=
        pairInv_of_dbInv hdb (List.mem_of_find?_eq_some hfind)
      have hw' : pairInv { w with
          resetPasswordToken := some (hexEncode rbytes)
          resetPasswordExpiresAt := some (now + 1 * 60 * 60 * 1000) } = true := by
        unfold pairInv at hw ⊢
        rw [Bool.and_eq_true] at hw
        simp [hw.1]
      cases saveO with
      | some msg => simpa [forgotPassword, hfind] using hdb
      | none =>
        cases emailO with
        | some msg =>
          simp only [forgotPassword, hfind]
          exact dbInv_updateById hdb hw'
        | none =>
          simp only [forgotPassword, hfind]
          exact dbInv_updateById hdb hw'
  · intro tok pw salt now saveO emailO
    cases hfind : db.find? (rMatch tok now) with
    | none => simpa [resetPassword, hfind] using hdb
    | some w =>
      have hw : pairInv w = true :=
        pairInv_of_dbInv hdb (List.mem_of_find?_eq_some hfind)
      have hw' : pairInv { w with
          password := bcryptHash salt pw
          resetPasswordToken := none
          resetPasswordExpiresAt := none } = true := by
        unfold pairInv at hw ⊢
        rw [Bool.and_eq_true] at hw
        simp [hw.1]
      cases saveO with
      | some msg => simpa [resetPassword, hfind] using hdb
      | none =>
        cases emailO with
        | some msg =>
          simp only [resetPassword, hfind]
          exact dbInv_updateById hdb hw'
        | none =>
          simp only [resetPassword, hfind]
          exact dbInv_updateById hdb hw'

/-- C8 witness: the two-user store `[adaUser, bobUser]` satisfies the
invariant, and each of the five handlers run on it (on concrete inputs)
preserves it. -/
theorem handlers_preserve_token_pair_invariant_witness :
    dbInv [adaUser, bobUser] = true ∧
    dbInv (signup ⟨some "Cat", some "cat@x.com", some "pw"⟩ [adaUser, bobUser]
      12 7 0 3 SaveOutcome.ok none).db = true ∧
    dbInv (login ⟨some "ada@x.com", some "pw12345"⟩ [adaUser, bobUser]
      5 none).db = true ∧
    dbInv (verifyEmail (some (some "123456")) [adaUser, bobUser]
      0 none none).db = true ∧
    dbInv (forgotPassword (some "bob@x.com") [adaUser, bobUser]
      (List.replicate 20 171) 0 none none "http://client").db = true ∧
    dbInv (resetPassword "aabb" "npw" [adaUser, bobUser]
      12 0 none none).db = true := by
  have h := handlers_preserve_token_pair_invariant [adaUser, bobUser] (by decide)
  exact ⟨by decide, h.1 _ _ _ _ _ _ _, h.2.1 _ _ _, h.2.2.1 _ _ _ _,
    h.2.2.2.1 _ _ _ _ _ _, h.2.2.2.2 _ _ _ _ _ _⟩

/-- C9: when the `verifyEmail` lookup finds user `u`, the save succeeds,
and the welcome-email send then throws, the handler returns the 500 error
envelope — yet the store already holds `u` verified with both
verification-token fields cleared: the failed side effect neither rolls
back nor prevents the committed mutation. -/
theorem verifyEmail_commits_before_email (db : List UserRec)
    (code : Option String) (now : Nat) (u : UserRec) (msg : String)
    (hf : db.find? (vMatch code now) = some u) :
    verifyEmail (some code) db now none (some msg) =
      ⟨⟨500, false, "An error occurred while verify email process", none,
          some msg⟩,
        updateById db (consumeVerification u), []⟩ ∧
    ∀ v ∈ (verifyEmail (some code) db now none (some msg)).db,
      v.id = u.id → v.isVerified = true ∧ v.verificationToken = none ∧
        v.verificationTokenExpiresAt = none := by
  have he : verifyEmail (some code) db now none (some msg) =
      ⟨⟨500, false, "An error occurred while verify email process", none,
          some msg⟩,
        updateById db (consumeVerification u), []⟩ := by
    simp [verifyEmail, hf, consumeVerification]
  refine ⟨he, ?_⟩
  intro v hv hvid
  rw [he] at hv
  rcases mem_updateById_strong hv with rfl | ⟨hvdb, hid⟩
  · exact ⟨rfl, rfl, rfl⟩
  · rw [hvid] at hid
    simp [consumeVerification] at hid

/-- C9 witness: the matching code `"123456"` for `adaUser` at time 0 with
the welcome email rejecting with `"smtp down"`: error envelope returned,
verified user committed. -/
theorem verifyEmail_commits_before_email_witness :
    verifyEmail (some (some "123456")) [adaUser] 0 none (some "smtp down") =
      ⟨⟨500, false, "An error occurred while verify email process", none,
          some "smtp down"⟩,
        updateById [adaUser] (consumeVerification adaUser), []⟩ ∧
    ((consumeVerification adaUser).isVerified = true ∧
      (consumeVerification adaUser).verificationToken = none ∧
      (consumeVerification adaUser).verificationTokenExpiresAt = none) := by
  have h := verifyEmail_commits_before_email [adaUser] (some "123456") 0
    adaUser "smtp down" (by rfl)
  exact ⟨h.1, h.2 (consumeVerification adaUser) (by rw [h.1]; decide) rfl⟩
